import Mathlib

/-!
Shallow embedding of `src/Utils/DrawConstellations.py` (RMS repository), whose
core is the function `drawConstellations(platepar, ff_file, separation_deg=90,
color_bgra=None, config=None)` at lines 21-39.

External collaborators that are not part of this repository's `src/` tree
(`numpy`, `cv2.line`, `os.path.basename`, `RMS.Formats.FFfile.getMiddleTimeFF`,
`RMS.Astrometry.Conversions.date2JD`, `RMS.Astrometry.ApplyAstrometry.raDecToXYPP`,
`RMS.Math.angularSeparation`, the parsed RMS configuration object) are injected
as parameters (`Externals`, `Config`), exactly as the specification treats them
("capability-typed dependency ... implement as an injected function/interface").
The filesystem visible to the function (the parsed content of
`share/constellation_lines.csv`) is an explicit environment parameter.
The spherical-trigonometry formula of `RMS.Math.angularSeparation` is modelled
separately over the reals from the specification's own formula, since its
source is not under `src/`.
-/

/-- A Python float value as observed by this pipeline: either a finite value
(modelled as a rational) or a non-finite one (NaN or plus/minus Inf).
The two operations the pipeline applies to possibly non-finite floats behave
uniformly on the non-finite values it can actually meet: `x < t` is `False`
for NaN (the only non-finite value `ang_sep` can take, being the image of an
`arccos` output under `rad2deg`), and `int(round(x))` raises for NaN
(ValueError) and for plus/minus Inf (OverflowError) alike. -/
inductive FVal where
  | fin (q : ℚ)
  | nonfinite
deriving DecidableEq

/-- The Python exceptions `drawConstellations` can raise, as observed by a
caller.  `nonFiniteError` stands for both the ValueError raised by
`int(round(nan))` and the OverflowError raised by `int(round(inf))`;
`indexError` is raised by `lines[:, 0]` at line 30 when `np.loadtxt` has
squeezed a zero-row catalog file to shape `(0,)` or a one-row file to shape
`(4,)`, neither of which admits a two-dimensional index. -/
inductive PyErr where
  | attributeError
  | nameError
  | nonFiniteError
  | indexError
deriving DecidableEq

/-- The fields of the platepar (calibration) object that `drawConstellations`
reads: `Y_res`, `X_res` (line 24), and the pointing center `RA_d`, `dec_d`
(line 33).  All other platepar fields are only ever passed opaquely to the
injected projector. -/
structure Platepar where
  X_res : ℕ
  Y_res : ℕ
  RA_d : ℚ
  dec_d : ℚ
deriving DecidableEq

/-- The RMS configuration object.  `drawConstellations` reads only
`config.frames_per_block` (line 27); the configured frame rate `fps` is a
field the function never reads (line 26 hardcodes `fps = 25` with a TODO). -/
structure Config where
  fps : ℚ
  frames_per_block : ℚ
deriving DecidableEq

/-- One row of `share/constellation_lines.csv`: a line segment
(from_ra, from_dec, to_ra, to_dec), all in degrees (lines 30-31). -/
structure Segment where
  from_ra : ℚ
  from_dec : ℚ
  to_ra : ℚ
  to_dec : ℚ
deriving DecidableEq

/-- The pixel content of a numpy image of shape (Y, X, 4): a map from
(row, column, channel) to a uint8-ranged value.  `cv2.line` mutates this
content in place and can never change the array's shape, which is why the
injected line primitive acts on `Pix` only. -/
def Pix : Type := ℕ → ℕ → Fin 4 → ℕ

/-- The numpy image returned by `drawConstellations`: its shape
(Y_res, X_res, 4) and its pixel content. -/
structure Canvas where
  Y_res : ℕ
  X_res : ℕ
  pix : Pix

/-- A draw command recorded for one accepted segment: the two rounded integer
endpoints handed to `cv2.line`, and the color. -/
def DrawCmd : Type := (ℤ × ℤ) × (ℤ × ℤ) × List ℕ

/-- The external collaborators injected into the pipeline. -/
structure Externals where
  /-- `os.path.basename` -/
  basename : String → String
  /-- `getMiddleTimeFF(ff_name, fps, ff_frames=...)`: returns a date tuple. -/
  getMiddleTimeFF : String → ℚ → ℚ → List ℚ
  /-- `date2JD(*date_tuple)`: Julian date from a date tuple. -/
  date2JD : List ℚ → ℚ
  /-- `raDecToXYPP(ra, dec, jd, platepar)` applied to one point; the source
  batches all points of one column into a vectorized call, which the spec
  declares observationally identical to per-point application. -/
  raDecToXYPP : ℚ → ℚ → ℚ → Platepar → FVal × FVal
  /-- The composite `np.rad2deg(angularSeparation(np.deg2rad a, np.deg2rad b,
  np.deg2rad c, np.deg2rad d))` of line 33, on degree-valued inputs.
  A non-finite result is NaN (an out-of-domain `arccos`). -/
  angSepDeg : ℚ → ℚ → ℚ → ℚ → FVal
  /-- `cv2.line(img, pt1, pt2, color, 1)`: in-place, shape-preserving. -/
  cvLine : Pix → (ℤ × ℤ) → (ℤ × ℤ) → List ℕ → Pix

/-- Python `round` on a finite float: round half to even (banker's rounding),
yielding an integer.  With `f = ⌊q⌋`, the fractional part `q - f =
(q.num - f * q.den) / q.den` is compared against `1/2` on cleared
denominators (`q.den > 0`), which keeps the definition kernel-evaluable:
`q - f < 1/2` iff `2 * (q.num - f * q.den) < q.den`, and the exact tie goes
to the even neighbour. -/
def pyRound (q : ℚ) : ℤ :=
  let f : ℤ := q.floor
  let r2 : ℤ := 2 * (q.num - f * (q.den : ℤ))
  if r2 < (q.den : ℤ) then f
  else if (q.den : ℤ) < r2 then f + 1
  else if f % 2 = 0 then f else f + 1

/-- `int(round(x))` for the coordinates the loop body actually converts; the
non-finite case is unreachable in runs that do not raise. -/
def roundF : FVal → ℤ
  | .fin q => pyRound q
  | .nonfinite => 0

/-- The comparison `ang_sep[i] < separation_deg` of line 36: False when
`ang_sep[i]` is NaN. -/
def fvalLt : FVal → ℚ → Bool
  | .fin q, t => decide (q < t)
  | .nonfinite, _ => false

/-- `FVal.isFin v` : whether `int(round v)` succeeds. -/
def FVal.isFin : FVal → Bool
  | .fin _ => true
  | .nonfinite => false

/-- Python truthiness of the `color_bgra` argument: `None` and `[]` are
falsy, any non-empty list is truthy. -/
def pyFalsy : Option (List ℕ) → Bool
  | none => true
  | some l => l.isEmpty

/-- Lines 22-23: `if not color_bgra: color_bgr = [255, 0, 0, 192]`.
The local `color_bgr` is bound (to the default) only when `color_bgra` is
falsy; otherwise it stays unbound (`none`), and evaluating it at line 37
raises NameError. -/
def colorBgrLocal (color_bgra : Option (List ℕ)) : Option (List ℕ) :=
  if pyFalsy color_bgra then some [255, 0, 0, 192] else none

/-- Lines 24-25: `img = np.zeros((Y_res, X_res, 4), dtype=np.uint8)` followed
by `img[:, :, 3] = 0`.  `np.zeros` already makes every channel 0; the alpha
assignment is kept to mirror the source. -/
def initPix : Pix :=
  fun y x k => if k = 3 then 0 else (fun _ _ _ => (0 : ℕ)) y x k

/-- The freshly allocated, fully transparent canvas at platepar resolution. -/
def initImg (platepar : Platepar) : Canvas :=
  ⟨platepar.Y_res, platepar.X_res, initPix⟩

/-- Lines 26-27: `fps = 25` (hardcoded, with a TODO to read it from the
config) and `fftime_jd = date2JD(*getMiddleTimeFF(os.path.basename(ff_file),
fps, ff_frames=config.frames_per_block))`. -/
def captureMomentJD (ext : Externals) (ff_file : String) (config : Config) : ℚ :=
  ext.date2JD (ext.getMiddleTimeFF (ext.basename ff_file) 25 config.frames_per_block)

/-- Line 28: the path of the catalog file read by every call,
`os.path.join(os.path.dirname(__file__), "../share/constellation_lines.csv")`. -/
def constellations_path : String :=
  "../share/constellation_lines.csv"

/-- The per-segment data the loop of lines 35-37 consumes: the projected
"from" pixel coordinates, the angular separation of the "from" endpoint from
the pointing center, and the projected "to" pixel coordinates (lines 32-34,
with the vectorized columns viewed per row). -/
structure Row where
  fx : FVal
  fy : FVal
  sep : FVal
  tx : FVal
  ty : FVal

/-- Whether row `r` passes the separation filter of line 36. -/
def Row.passes (r : Row) (t : ℚ) : Bool := fvalLt r.sep t

/-- Whether all four coordinates of row `r` survive `int(round(.))`. -/
def Row.allFinite (r : Row) : Bool :=
  r.fx.isFin && r.fy.isFin && r.tx.isFin && r.ty.isFin

/-- The draw command line 37 issues for an accepted row. -/
def Row.cmd (r : Row) (c : List ℕ) : DrawCmd :=
  ((roundF r.fx, roundF r.fy), (roundF r.tx, roundF r.ty), c)

/-- Lines 32-34 for one catalog row: project the "from" endpoint, compute its
angular separation from the pointing center (`ang_sep`), and project the "to"
endpoint. -/
def segRow (ext : Externals) (platepar : Platepar) (jd : ℚ) (s : Segment) : Row :=
  let f := ext.raDecToXYPP s.from_ra s.from_dec jd platepar
  let t := ext.raDecToXYPP s.to_ra s.to_dec jd platepar
  ⟨f.1, f.2, ext.angSepDeg platepar.RA_d platepar.dec_d s.from_ra s.from_dec, t.1, t.2⟩

/-- The loop of lines 35-37.  For each row in order: if `ang_sep[i] <
separation_deg`, evaluate the four `int(round(.))` conversions left to right
(raising on a non-finite coordinate), then evaluate the name `color_bgr`
(raising NameError when it was never bound), then call `cv2.line`.  The list
of issued draw commands is recorded alongside the mutated pixel content. -/
def drawLoop (L : Pix → (ℤ × ℤ) → (ℤ × ℤ) → List ℕ → Pix)
    (color_bgr : Option (List ℕ)) (t : ℚ) :
    List Row → Pix → List DrawCmd → Except PyErr (Pix × List DrawCmd)
  | [], pix, cmds => .ok (pix, cmds)
  | r :: rest, pix, cmds =>
    if r.passes t then
      if r.allFinite then
        match color_bgr with
        | some c =>
            drawLoop L color_bgr t rest
              (L pix (roundF r.fx, roundF r.fy) (roundF r.tx, roundF r.ty) c)
              (cmds ++ [r.cmd c])
        | none => .error .nameError
      else .error .nonFiniteError
    else drawLoop L color_bgr t rest pix cmds

/-- Lines 27-39 once the `config.frames_per_block` attribute access has
succeeded.  Lines 29-30 read and column-index the catalog: `np.loadtxt`
(default `ndmin=0`) squeezes mono-dimensional results, so a zero-row file
parses to shape `(0,)` and a one-row file to shape `(4,)`, and in both cases
the two-dimensional index `lines[:, 0]` at line 30 raises IndexError before
any projection; only files with at least two rows yield the `(N, 4)` array
the rest of the function consumes. -/
def drawBody (ext : Externals) (env : String → List Segment) (platepar : Platepar)
    (ff_file : String) (separation_deg : ℚ) (color_bgra : Option (List ℕ))
    (cfg : Config) : Except PyErr (Canvas × List DrawCmd) :=
  if (env constellations_path).length < 2 then .error .indexError
  else
    match drawLoop ext.cvLine (colorBgrLocal color_bgra) separation_deg
        ((env constellations_path).map (segRow ext platepar (captureMomentJD ext ff_file cfg)))
        initPix [] with
    | .ok (pix, cmds) => .ok (⟨platepar.Y_res, platepar.X_res, pix⟩, cmds)
    | .error e => .error e

/-- `drawConstellations(platepar, ff_file, separation_deg=90, color_bgra=None,
config=None)`, lines 21-39.  `env` is the filesystem the call reads (the
parsed rows of each csv path); `ext` the injected external collaborators.
Passing `config = none` models the Python default: line 27 then evaluates
`None.frames_per_block` and raises AttributeError.  The result pairs the
returned image with the trace of draw commands issued. -/
def drawConstellations (ext : Externals) (env : String → List Segment)
    (platepar : Platepar) (ff_file : String) (separation_deg : ℚ)
    (color_bgra : Option (List ℕ)) (config : Option Config) :
    Except PyErr (Canvas × List DrawCmd) :=
  match config with
  | none => .error .attributeError
  | some cfg => drawBody ext env platepar ff_file separation_deg color_bgra cfg

/-- The pixel content produced by handing each listed row to `cv2.line` in
order, starting from `pix`. -/
def drawFold (L : Pix → (ℤ × ℤ) → (ℤ × ℤ) → List ℕ → Pix) (c : List ℕ)
    (rows : List Row) (pix : Pix) : Pix :=
  rows.foldl (fun p r => L p (roundF r.fx, roundF r.fy) (roundF r.tx, roundF r.ty) c) pix

lemma drawLoop_ok_of_finite (L : Pix → (ℤ × ℤ) → (ℤ × ℤ) → List ℕ → Pix)
    (c : List ℕ) (t : ℚ) (rows : List Row) :
    ∀ (pix : Pix) (cmds : List DrawCmd),
      (∀ r ∈ rows, r.passes t = true → r.allFinite = true) →
      drawLoop L (some c) t rows pix cmds =
        .ok (drawFold L c (rows.filter (fun r => r.passes t)) pix,
             cmds ++ (rows.filter (fun r => r.passes t)).map (fun r => r.cmd c)) := by
  induction rows with
  | nil => intro pix cmds _; simp [drawLoop, drawFold]
  | cons r rest ih =>
    intro pix cmds h
    by_cases hp : r.passes t = true
    · have hf : r.allFinite = true := h r (List.mem_cons_self r rest) hp
      rw [drawLoop]
      simp only [hp, hf, if_true]
      rw [ih _ _ (fun x hx hpx => h x (List.mem_cons_of_mem r hx) hpx)]
      simp [drawFold, List.filter_cons, hp, List.append_assoc]
    · rw [drawLoop]
      simp only [hp, if_false, Bool.false_eq_true]
      rw [ih _ _ (fun x hx hpx => h x (List.mem_cons_of_mem r hx) hpx)]
      simp [List.filter_cons, hp]

lemma drawLoop_err_of_nonfinite (L : Pix → (ℤ × ℤ) → (ℤ × ℤ) → List ℕ → Pix)
    (c : List ℕ) (t : ℚ) (rows : List Row) :
    ∀ (pix : Pix) (cmds : List DrawCmd),
      (∃ r ∈ rows, r.passes t = true ∧ r.allFinite = false) →
      drawLoop L (some c) t rows pix cmds = .error .nonFiniteError := by
  induction rows with
  | nil => intro pix cmds h; simp at h
  | cons r rest ih =>
    intro pix cmds h
    by_cases hp : r.passes t = true
    · by_cases hf : r.allFinite = true
      · rw [drawLoop]
        simp only [hp, hf, if_true]
        apply ih
        rcases h with ⟨x, hx, hpx, hfx⟩
        rcases List.mem_cons.1 hx with rfl | hx
        · rw [hf] at hfx; cases hfx
        · exact ⟨x, hx, hpx, hfx⟩
      · rw [drawLoop]
        simp only [hp, if_true]
        simp only [Bool.not_eq_true] at hf
        simp [hf]
    · rw [drawLoop]
      simp only [hp, if_false, Bool.false_eq_true]
      apply ih
      rcases h with ⟨x, hx, hpx, hfx⟩
      rcases List.mem_cons.1 hx with rfl | hx
      · rw [hpx] at hp; cases hp rfl
      · exact ⟨x, hx, hpx, hfx⟩

lemma drawLoop_isOk_iff (L : Pix → (ℤ × ℤ) → (ℤ × ℤ) → List ℕ → Pix)
    (c : List ℕ) (t : ℚ) (rows : List Row) (pix : Pix) (cmds : List DrawCmd) :
    (∃ res, drawLoop L (some c) t rows pix cmds = .ok res) ↔
      ∀ r ∈ rows, r.passes t = true → r.allFinite = true := by
  constructor
  · intro hok
    by_contra hbad
    push_neg at hbad
    rcases hbad with ⟨r, hr, hp, hf⟩
    have := drawLoop_err_of_nonfinite L c t rows pix cmds
      ⟨r, hr, hp, Bool.not_eq_true _ ▸ (Bool.eq_false_iff.2 hf)⟩
    rcases hok with ⟨res, hres⟩
    rw [this] at hres
    cases hres
  · intro h
    exact ⟨_, drawLoop_ok_of_finite L c t rows pix cmds h⟩

/-- `np.deg2rad`: degrees to radians. -/
noncomputable def np_deg2rad (x : ℝ) : ℝ := x * (Real.pi / 180)

/-- `np.rad2deg`: radians to degrees. -/
noncomputable def np_rad2deg (x : ℝ) : ℝ := x * (180 / Real.pi)

/-- Modelled from the spec: `RMS.Math.angularSeparation` is imported by
`DrawConstellations.py` but its source is not under `src/`; the specification
gives its law-of-cosines form on radian inputs,
`arccos(sin(dec1) sin(dec2) + cos(dec1) cos(dec2) cos(ra1 - ra2))`. -/
noncomputable def angularSeparation (ra1 dec1 ra2 dec2 : ℝ) : ℝ :=
  Real.arccos (Real.sin dec1 * Real.sin dec2 +
    Real.cos dec1 * Real.cos dec2 * Real.cos (ra1 - ra2))

/-- Line 33 on real-valued degree inputs: `np.rad2deg(angularSeparation(
np.deg2rad(RA_d), np.deg2rad(dec_d), np.deg2rad(from_ra), np.deg2rad(from_dec)))`. -/
noncomputable def ang_sep_line33 (RA_d dec_d from_ra from_dec : ℝ) : ℝ :=
  np_rad2deg (angularSeparation (np_deg2rad RA_d) (np_deg2rad dec_d)
    (np_deg2rad from_ra) (np_deg2rad from_dec))

/-- The separation the specification describes, written out from its words:
convert the degree inputs to radians, apply
`arccos(sin(dec1) sin(dec2) + cos(dec1) cos(dec2) cos(ra1 - ra2))`, and
convert the result back to degrees. -/
noncomputable def specSeparationDeg (ra1 dec1 ra2 dec2 : ℝ) : ℝ :=
  (180 / Real.pi) *
    Real.arccos (Real.sin (dec1 * (Real.pi / 180)) * Real.sin (dec2 * (Real.pi / 180)) +
      Real.cos (dec1 * (Real.pi / 180)) * Real.cos (dec2 * (Real.pi / 180)) *
        Real.cos (ra1 * (Real.pi / 180) - ra2 * (Real.pi / 180)))

/-- The true composite of line 33 is nonnegative: `arccos` has range
`[0, π]` and `180 / π ≥ 0`.  This is the fact behind the `NonnegOrNaN`
hypothesis placed on the injected `angSepDeg`. -/
lemma ang_sep_line33_nonneg (RA_d dec_d from_ra from_dec : ℝ) :
    0 ≤ ang_sep_line33 RA_d dec_d from_ra from_dec := by
  unfold ang_sep_line33 np_rad2deg
  apply mul_nonneg (Real.arccos_nonneg _)
  positivity

/-- What line 33 can actually produce: a nonnegative finite number (the
`arccos` output, scaled) or NaN.  Stated of an `FVal` so it can be assumed of
the injected `angSepDeg`. -/
def FVal.NonnegOrNaN : FVal → Prop
  | .fin q => 0 ≤ q
  | .nonfinite => True

/-- Concrete external collaborators used to evaluate the pipeline at specific
inputs: an identity-flavoured projector (pixel x = ra, pixel y = dec), a
separation equal to the absolute value of the from-RA (nonnegative, as the
real composite is), and a `cv2.line` that records nothing beyond the trace. -/
def exampleExt : Externals where
  basename := fun s => s
  getMiddleTimeFF := fun _ fps n => [fps, n]
  date2JD := fun l => l.foldr (fun a b => a + b) 0
  raDecToXYPP := fun ra dec _ _ => (.fin ra, .fin dec)
  angSepDeg := fun _ _ c _ => .fin |c|
  cvLine := fun p _ _ _ => p

/-- `exampleExt` with a projector that reports a non-finite (NaN) pixel
position for the sky point at RA 15 degrees, as a projector may for sky
positions far outside its valid domain. -/
def nanAt15Ext : Externals :=
  { exampleExt with
    raDecToXYPP := fun ra dec _ _ =>
      if ra == 15 then (.nonfinite, .fin dec) else (.fin ra, .fin dec) }

/-- A small platepar: 10 x 10 pixels, pointing at RA 0, Dec 0. -/
def examplePP : Platepar := ⟨10, 10, 0, 0⟩

/-- A configuration with frame rate 25 and 256 frames per block. -/
def exampleCfg : Config := ⟨25, 256⟩

/-- The scenario segment of the specification: from (10, 20) to (15, 25). -/
def exampleSeg : Segment := ⟨10, 20, 15, 25⟩

/-- A segment whose from endpoint lies 100 degrees from the example pointing
center under `exampleExt.angSepDeg`, hence fails a 90-degree filter. -/
def farSeg : Segment := ⟨100, 30, 110, 35⟩

/-- The number of draw commands of a pipeline outcome (0 for an error). -/
def cmdCount : Except PyErr (Canvas × List DrawCmd) → ℕ
  | .ok p => p.2.length
  | .error _ => 0

/-- C9: although the `config` parameter of `drawConstellations` defaults to
`None`, every call with `config = None` fails with AttributeError, because
line 27 unconditionally evaluates `config.frames_per_block`; hence a non-None
config carrying a `frames_per_block` attribute is a precondition of every
successful render. -/
theorem C9_config_none_always_fails (ext : Externals) (env : String → List Segment)
    (platepar : Platepar) (ff_file : String) (separation_deg : ℚ)
    (color_bgra : Option (List ℕ)) :
    drawConstellations ext env platepar ff_file separation_deg color_bgra none =
      .error .attributeError := rfl

/-- C10: the capture-moment Julian date is computed with the frame rate fixed
at 25 fps (line 26), independent of the frame-rate setting of the supplied
configuration; two calls whose configurations differ only in `fps` produce
the same capture moment, and indeed the same overall result. -/
theorem C10_fps_hardcoded_25 (ext : Externals) (env : String → List Segment)
    (platepar : Platepar) (ff_file : String) (separation_deg : ℚ)
    (color_bgra : Option (List ℕ)) (fps1 fps2 fpb : ℚ) :
    captureMomentJD ext ff_file ⟨fps1, fpb⟩ =
      ext.date2JD (ext.getMiddleTimeFF (ext.basename ff_file) 25 fpb) ∧
    captureMomentJD ext ff_file ⟨fps1, fpb⟩ = captureMomentJD ext ff_file ⟨fps2, fpb⟩ ∧
    drawConstellations ext env platepar ff_file separation_deg color_bgra (some ⟨fps1, fpb⟩) =
      drawConstellations ext env platepar ff_file separation_deg color_bgra (some ⟨fps2, fpb⟩) :=
  ⟨rfl, rfl, rfl⟩

/-- C7: the separation computed at line 33 is the great-circle distance
between the pointing center (RA_d, dec_d) and the from endpoint, obtained by
converting the degree inputs to radians, applying the spherical law-of-cosines
form `arccos(sin(dec1) sin(dec2) + cos(dec1) cos(dec2) cos(ra1 - ra2))`, and
converting the result back to degrees (the spec's formula, written out
independently in `specSeparationDeg`). -/
theorem C7_separation_formula (RA_d dec_d from_ra from_dec : ℝ) :
    ang_sep_line33 RA_d dec_d from_ra from_dec =
      specSeparationDeg RA_d dec_d from_ra from_dec := by
  unfold ang_sep_line33 specSeparationDeg np_rad2deg np_deg2rad angularSeparation
  ring

/-- C4 is right about the intent but fails on the code: with an empty
catalog file the render does not succeed for any calibration, color or
threshold.  `np.loadtxt` squeezes the zero-row file to shape `(0,)` and the
column index `lines[:, 0]` at line 30 raises IndexError before any
projection; no transparent canvas is ever returned. -/
theorem C4_empty_catalog_index_error (ext : Externals) (platepar : Platepar)
    (ff_file : String) (separation_deg : ℚ) (color_bgra : Option (List ℕ))
    (cfg : Config) :
    drawConstellations ext (fun _ => []) platepar ff_file separation_deg color_bgra
      (some cfg) = .error .indexError := rfl

/-- C6: for every calibration with positive resolution, a successful render
returns a canvas of shape exactly (Y_res, X_res, 4) — the four channels are
structural in `Pix` — and the canvas allocated at lines 24-25, before any
segment is drawn, is fully transparent. -/
theorem C6_canvas_shape (ext : Externals) (env : String → List Segment)
    (platepar : Platepar) (ff_file : String) (separation_deg : ℚ)
    (color_bgra : Option (List ℕ)) (cfg : Config)
    (canvas : Canvas) (cmds : List DrawCmd)
    (hx : 0 < platepar.X_res) (hy : 0 < platepar.Y_res)
    (hok : drawConstellations ext env platepar ff_file separation_deg color_bgra (some cfg) =
      .ok (canvas, cmds)) :
    canvas.Y_res = platepar.Y_res ∧ canvas.X_res = platepar.X_res ∧
    ∀ y x, (initImg platepar).pix y x 3 = 0 := by
  simp only [drawConstellations, drawBody] at hok
  by_cases hlen : (env constellations_path).length < 2
  · rw [if_pos hlen] at hok
    cases hok
  · rw [if_neg hlen] at hok
    cases hL : drawLoop ext.cvLine (colorBgrLocal color_bgra) separation_deg
        ((env constellations_path).map (segRow ext platepar (captureMomentJD ext ff_file cfg)))
        initPix [] with
    | ok res =>
      rw [hL] at hok
      cases hok
      exact ⟨rfl, rfl, fun y x => rfl⟩
    | error e =>
      rw [hL] at hok
      cases hok

/-- Witness for C6 at a concrete input: the 10 x 10 example calibration with
a two-row catalog file of which the first segment is drawn. -/
theorem C6_canvas_shape_witness :
    (initImg examplePP).Y_res = examplePP.Y_res ∧
    (initImg examplePP).X_res = examplePP.X_res ∧
    ∀ y x, (initImg examplePP).pix y x 3 = 0 :=
  C6_canvas_shape exampleExt (fun _ => [exampleSeg, farSeg]) examplePP "ff" 90 none exampleCfg
    (initImg examplePP) [((10, 20), (15, 25), [255, 0, 0, 192])] (by decide) (by decide) rfl

lemma segRow_sep (ext : Externals) (platepar : Platepar) (jd : ℚ) (s : Segment) :
    (segRow ext platepar jd s).sep =
      ext.angSepDeg platepar.RA_d platepar.dec_d s.from_ra s.from_dec := rfl

lemma fvalLt_nonpos (v : FVal) (t : ℚ) (h : v.NonnegOrNaN) (ht : t ≤ 0) :
    fvalLt v t = false := by
  cases v with
  | fin q =>
    simp only [fvalLt, decide_eq_false_iff_not, not_lt]
    exact le_trans ht h
  | nonfinite => rfl

/-- C2: in a successful render the drawn segments are exactly those whose
from-endpoint separation from the pointing center is strictly below
`separation_deg` — the to endpoint plays no part in the filter decision — in
catalog order; and with threshold 0 nothing is drawn (line 33 separations are
nonnegative-or-NaN, being scaled `arccos` outputs, which is the `hnn`
hypothesis). -/
theorem C2_from_endpoint_filter (ext : Externals) (env : String → List Segment)
    (platepar : Platepar) (ff_file : String) (separation_deg : ℚ) (cfg : Config)
    (canvas : Canvas) (cmds : List DrawCmd)
    (hnn : ∀ a b c d, (ext.angSepDeg a b c d).NonnegOrNaN)
    (hok : drawConstellations ext env platepar ff_file separation_deg none (some cfg) =
      .ok (canvas, cmds)) :
    cmds = ((env constellations_path).filter (fun s =>
        fvalLt (ext.angSepDeg platepar.RA_d platepar.dec_d s.from_ra s.from_dec)
          separation_deg)).map
        (fun s => (segRow ext platepar (captureMomentJD ext ff_file cfg) s).cmd
          [255, 0, 0, 192]) ∧
    (separation_deg = 0 → cmds = []) := by
  simp only [drawConstellations, drawBody] at hok
  by_cases hlen : (env constellations_path).length < 2
  · rw [if_pos hlen] at hok
    cases hok
  · rw [if_neg hlen] at hok
    have hcolor : colorBgrLocal none = some [255, 0, 0, 192] := rfl
    rw [hcolor] at hok
    have hfin : ∀ r ∈ (env constellations_path).map
        (segRow ext platepar (captureMomentJD ext ff_file cfg)),
        r.passes separation_deg = true → r.allFinite = true := by
      rw [← drawLoop_isOk_iff ext.cvLine [255, 0, 0, 192] separation_deg _ initPix []]
      cases hL : drawLoop ext.cvLine (some [255, 0, 0, 192]) separation_deg
          ((env constellations_path).map (segRow ext platepar (captureMomentJD ext ff_file cfg)))
          initPix [] with
      | ok res => exact ⟨res, rfl⟩
      | error e => rw [hL] at hok; cases hok
    have hrun := drawLoop_ok_of_finite ext.cvLine [255, 0, 0, 192] separation_deg
      ((env constellations_path).map (segRow ext platepar (captureMomentJD ext ff_file cfg)))
      initPix [] hfin
    rw [hrun] at hok
    simp only [Except.ok.injEq, Prod.mk.injEq, List.nil_append] at hok
    have hcmds : cmds = (((env constellations_path).map
          (segRow ext platepar (captureMomentJD ext ff_file cfg))).filter
          (fun r => r.passes separation_deg)).map
          (fun r => r.cmd [255, 0, 0, 192]) := hok.2.symm
    rw [List.filter_map, List.map_map] at hcmds
    constructor
    · exact hcmds
    · intro h0
      subst h0
      rw [hcmds]
      have : (env constellations_path).filter
          ((fun r => r.passes 0) ∘ segRow ext platepar (captureMomentJD ext ff_file cfg)) = [] := by
        apply List.filter_eq_nil_iff.2
        intro s _
        simp only [Function.comp_apply, Row.passes, segRow_sep]
        rw [fvalLt_nonpos _ _ (hnn _ _ _ _) le_rfl]
        simp
      rw [this]
      rfl

/-- Witness for C2 at a concrete input: a two-segment catalog in which the
first segment (from-RA 10, separation 10) passes the 90-degree filter and the
second (from-RA 100, separation 100) does not; exactly the first is drawn. -/
theorem C2_from_endpoint_filter_witness :
    ([((10, 20), (15, 25), [255, 0, 0, 192])] : List DrawCmd) =
      (((fun _ => [exampleSeg, farSeg]) constellations_path).filter (fun s =>
        fvalLt (exampleExt.angSepDeg examplePP.RA_d examplePP.dec_d s.from_ra s.from_dec)
          90)).map
        (fun s => (segRow exampleExt examplePP (captureMomentJD exampleExt "ff" exampleCfg) s).cmd
          [255, 0, 0, 192]) ∧
    ((90 : ℚ) = 0 → ([((10, 20), (15, 25), [255, 0, 0, 192])] : List DrawCmd) = []) :=
  C2_from_endpoint_filter exampleExt (fun _ => [exampleSeg, farSeg]) examplePP "ff" 90
    exampleCfg (initImg examplePP) [((10, 20), (15, 25), [255, 0, 0, 192])]
    (fun _ _ c _ => abs_nonneg c) rfl

/-- C1 fails on the code: in a well-formed two-row catalog, a projector
reporting NaN for the "to" endpoint of a segment whose "from" endpoint passes
the filter does not lead to that segment being skipped; line 37 evaluates
`int(round(nan))` and the whole render aborts with an error (the second
segment, which merely fails the filter, is skipped as usual). -/
theorem C1_nan_to_endpoint_counterexample :
    drawConstellations nanAt15Ext (fun _ => [exampleSeg, farSeg]) examplePP "ff" 90 none
      (some exampleCfg) = .error .nonFiniteError := rfl

/-- C1 amended: for catalog files with at least two rows (a zero- or one-row
file instead crashes with IndexError at line 30 before any projection),
segments whose from-endpoint separation fails the filter (including a NaN
separation, for which the `<` comparison is False) are skipped without error,
but the render completes successfully exactly when every segment that passes
the filter has finite projected coordinates at both endpoints; a non-finite
coordinate on a passing segment aborts the render with an error instead of
skipping that segment. -/
theorem C1_amended_ok_iff_passing_finite (ext : Externals) (env : String → List Segment)
    (platepar : Platepar) (ff_file : String) (separation_deg : ℚ) (cfg : Config)
    (hlen : 2 ≤ (env constellations_path).length) :
    (∃ res, drawConstellations ext env platepar ff_file separation_deg none (some cfg) =
      .ok res) ↔
    ∀ s ∈ env constellations_path,
      (segRow ext platepar (captureMomentJD ext ff_file cfg) s).passes separation_deg = true →
      (segRow ext platepar (captureMomentJD ext ff_file cfg) s).allFinite = true := by
  have hc : colorBgrLocal none = some [255, 0, 0, 192] := rfl
  have hlen2 : ¬ (env constellations_path).length < 2 := Nat.not_lt.2 hlen
  constructor
  · rintro ⟨res, hres⟩
    simp only [drawConstellations, drawBody, hc] at hres
    rw [if_neg hlen2] at hres
    intro s hs hp
    have hok : ∃ r2, drawLoop ext.cvLine (some [255, 0, 0, 192]) separation_deg
        ((env constellations_path).map (segRow ext platepar (captureMomentJD ext ff_file cfg)))
        initPix [] = .ok r2 := by
      cases hL : drawLoop ext.cvLine (some [255, 0, 0, 192]) separation_deg
          ((env constellations_path).map (segRow ext platepar (captureMomentJD ext ff_file cfg)))
          initPix [] with
      | ok r2 => exact ⟨r2, rfl⟩
      | error e => rw [hL] at hres; cases hres
    have hall := (drawLoop_isOk_iff ext.cvLine [255, 0, 0, 192] separation_deg
      ((env constellations_path).map (segRow ext platepar (captureMomentJD ext ff_file cfg)))
      initPix []).1 hok
    exact hall _ (List.mem_map_of_mem _ hs) hp
  · intro h
    have hall : ∀ r ∈ (env constellations_path).map
        (segRow ext platepar (captureMomentJD ext ff_file cfg)),
        r.passes separation_deg = true → r.allFinite = true := by
      intro r hr hp
      rcases List.mem_map.1 hr with ⟨s, hs, rfl⟩
      exact h s hs hp
    obtain ⟨res, hres⟩ := (drawLoop_isOk_iff ext.cvLine [255, 0, 0, 192] separation_deg
      ((env constellations_path).map (segRow ext platepar (captureMomentJD ext ff_file cfg)))
      initPix []).2 hall
    obtain ⟨pix1, cmds1⟩ := res
    refine ⟨(⟨platepar.Y_res, platepar.X_res, pix1⟩, cmds1), ?_⟩
    simp only [drawConstellations, drawBody, hc]
    rw [if_neg hlen2, hres]

/-- Witness for the amended C1 at a concrete input: with the two-row example
catalog and the identity-flavoured projector (all coordinates finite), both
sides of the iff hold. -/
theorem C1_amended_ok_iff_passing_finite_witness :
    ((∃ res, drawConstellations exampleExt (fun _ => [exampleSeg, farSeg]) examplePP "ff" 90
      none (some exampleCfg) = .ok res) ↔
    ∀ s ∈ [exampleSeg, farSeg],
      (segRow exampleExt examplePP (captureMomentJD exampleExt "ff" exampleCfg) s).passes 90 =
        true →
      (segRow exampleExt examplePP (captureMomentJD exampleExt "ff" exampleCfg) s).allFinite =
        true) :=
  C1_amended_ok_iff_passing_finite exampleExt (fun _ => [exampleSeg, farSeg]) examplePP "ff"
    90 exampleCfg (by decide)

/-- C5 fails on the code: a threshold of 200 degrees, outside [0, 180], is
not rejected at the boundary (there is no InvalidParameter check anywhere in
`drawConstellations`); the call proceeds through projection and drawing and
returns a canvas. -/
theorem C5_out_of_range_threshold_accepted :
    drawConstellations exampleExt (fun _ => [exampleSeg, farSeg]) examplePP "ff" 200 none
      (some exampleCfg) =
      .ok (initImg examplePP, [((10, 20), (15, 25), [255, 0, 0, 192]),
        ((100, 30), (110, 35), [255, 0, 0, 192])]) := rfl

/-- C5 amended: `drawConstellations` performs no range validation on
`separation_deg`; for well-formed catalog files (at least two rows — fewer
crash with IndexError at line 30 whatever the threshold) the raw value is
used directly as the strict threshold of line 36.  In particular a negative
threshold is accepted and simply draws nothing (separations are
nonnegative-or-NaN), returning the transparent canvas. -/
theorem C5_amended_no_validation (ext : Externals) (env : String → List Segment)
    (platepar : Platepar) (ff_file : String) (separation_deg : ℚ) (cfg : Config)
    (hnn : ∀ a b c d, (ext.angSepDeg a b c d).NonnegOrNaN)
    (ht : separation_deg < 0)
    (hlen : 2 ≤ (env constellations_path).length) :
    drawConstellations ext env platepar ff_file separation_deg none (some cfg) =
      .ok (initImg platepar, []) := by
  have hc : colorBgrLocal none = some [255, 0, 0, 192] := rfl
  simp only [drawConstellations, drawBody, hc]
  rw [if_neg (Nat.not_lt.2 hlen)]
  have hnp : ∀ r ∈ (env constellations_path).map
      (segRow ext platepar (captureMomentJD ext ff_file cfg)),
      r.passes separation_deg = true → r.allFinite = true := by
    intro r hr hp
    rcases List.mem_map.1 hr with ⟨s, _, rfl⟩
    rw [Row.passes, segRow_sep,
      fvalLt_nonpos _ _ (hnn _ _ _ _) (le_of_lt ht)] at hp
    cases hp
  rw [drawLoop_ok_of_finite ext.cvLine [255, 0, 0, 192] separation_deg
    ((env constellations_path).map (segRow ext platepar (captureMomentJD ext ff_file cfg)))
    initPix [] hnp]
  have hfilter : ((env constellations_path).map
      (segRow ext platepar (captureMomentJD ext ff_file cfg))).filter
      (fun r => r.passes separation_deg) = [] := by
    apply List.filter_eq_nil_iff.2
    intro r hr
    rcases List.mem_map.1 hr with ⟨s, _, rfl⟩
    rw [Row.passes, segRow_sep,
      fvalLt_nonpos _ _ (hnn _ _ _ _) (le_of_lt ht)]
    simp
  rw [hfilter]
  rfl

/-- Witness for the amended C5 at a concrete input: threshold -5 (outside
[0, 180]) on the two-row example catalog is accepted and yields the empty,
fully transparent canvas. -/
theorem C5_amended_no_validation_witness :
    drawConstellations exampleExt (fun _ => [exampleSeg, farSeg]) examplePP "ff" (-5) none
      (some exampleCfg) = .ok (initImg examplePP, []) :=
  C5_amended_no_validation exampleExt (fun _ => [exampleSeg, farSeg]) examplePP "ff" (-5)
    exampleCfg (fun _ _ c _ => abs_nonneg c) (by norm_num) (by decide)

/-- C3 fails on the code: with a caller-supplied color and a well-formed
two-row catalog whose first segment passes the filter, line 37 evaluates the
local `color_bgr`, which lines 22-23 bind only when `color_bgra` is falsy —
the caller's color is never used and the call raises NameError instead of
succeeding. -/
theorem C3_supplied_color_raises_name_error :
    drawConstellations exampleExt (fun _ => [exampleSeg, farSeg]) examplePP "ff" 90
      (some [0, 255, 0, 255]) (some exampleCfg) = .error .nameError := rfl

/-- C8 fails on the code: two calls with identical caller-supplied arguments
but different on-disk catalog content give different results, so a render
call does perform a catalog-file read of its own (lines 28-29) rather than
consuming a caller-supplied catalog. -/
theorem C8_render_reads_catalog_counterexample :
    drawConstellations exampleExt (fun _ => [exampleSeg, farSeg]) examplePP "ff" 90 none
      (some exampleCfg) ≠
      drawConstellations exampleExt (fun _ => [exampleSeg, exampleSeg]) examplePP "ff" 90 none
        (some exampleCfg) := by
  intro h
  have h1 : cmdCount (drawConstellations exampleExt (fun _ => [exampleSeg, farSeg]) examplePP
      "ff" 90 none (some exampleCfg)) = 1 := rfl
  have h2 : cmdCount (drawConstellations exampleExt (fun _ => [exampleSeg, exampleSeg])
      examplePP "ff" 90 none (some exampleCfg)) = 2 := rfl
  rw [h] at h1
  rw [h2] at h1
  exact absurd h1 (by decide)

/-- C8 amended: the catalog is not caller-supplied; every render call reads
`share/constellation_lines.csv` itself, and its result depends on the
filesystem only through that file's content at call time. -/
theorem C8_amended_reads_only_csv (ext : Externals) (env env2 : String → List Segment)
    (platepar : Platepar) (ff_file : String) (separation_deg : ℚ)
    (color_bgra : Option (List ℕ)) (config : Option Config)
    (h : env constellations_path = env2 constellations_path) :
    drawConstellations ext env platepar ff_file separation_deg color_bgra config =
      drawConstellations ext env2 platepar ff_file separation_deg color_bgra config := by
  cases config with
  | none => rfl
  | some cfg =>
    simp only [drawConstellations, drawBody]
    rw [h]

/-- A filesystem whose catalog file holds the two example segments and whose
every other path parses as empty. -/
def envCsvOnly : String → List Segment :=
  fun p => if p = constellations_path then [exampleSeg, farSeg] else []

/-- A filesystem that parses every path as the two example segments; it
agrees with `envCsvOnly` on the catalog path. -/
def envAll : String → List Segment := fun _ => [exampleSeg, farSeg]

/-- Witness for the amended C8 at a concrete input: two filesystems agreeing
on `share/constellation_lines.csv` but nowhere else give identical renders. -/
theorem C8_amended_reads_only_csv_witness :
    drawConstellations exampleExt envCsvOnly examplePP "ff" 90 none (some exampleCfg) =
      drawConstellations exampleExt envAll examplePP "ff" 90 none (some exampleCfg) :=
  C8_amended_reads_only_csv exampleExt envCsvOnly envAll examplePP "ff" 90 none
    (some exampleCfg) (by simp [envCsvOnly, envAll])
